import Mathlib

/-!
Verification of the credential-validation and authentication pipeline of this
repository against its specification.

The development shallowly embeds the Python sources:

* `src/common/security_utils.py` — `PasswordValidator.validate_password_strength`,
  `PasswordValidator._has_repeated_patterns`, `SecureHasher.hash_password`,
  `SecureHasher.verify_password`, `SecureHasher._constant_time_compare`;
* `src/auth.py` — `AuthManager.authenticate_user`, `_check_rate_limit`,
  `_record_failed_attempt`, `_reset_rate_limit`, `create_jwt_token`,
  `verify_jwt_token`.

Modelling conventions:

* byte strings are `List Nat` with every entry `< 256`;
* wall-clock time is `Int` seconds (Python uses floats; only ordering and
  subtraction by the window length matter, so integer instants suffice);
* the global dictionary `failed_login_attempts` is a total function
  `String → List Int`; a key that is absent from the Python dict corresponds to
  the empty list, which is faithful because every read uses `.get(key, [])` or
  creates the key just before appending, and the purge in `_check_rate_limit`
  deletes a key exactly when its list becomes empty;
* the key-derivation function `hashlib.pbkdf2_hmac('sha256', pw, salt, 100000)`
  and the HMAC signature of `jwt.encode` are cryptographic primitives external
  to the repository; they are abstracted as explicit function parameters
  (`kdf`, `sign`), and theorems that depend on collision-freedom state it as a
  hypothesis;
* randomness (`secrets.token_bytes`, `secrets.token_urlsafe`) is passed in as
  an explicit argument (the fresh salt, the fresh default signing key);
* Python character predicates (`str.islower`, `str.isupper`, `str.isdigit`,
  `str.lower`, `str.strip`) are modelled by their ASCII behaviour, which they
  coincide with on every string the claims mention.
-/

/-- Decidable equality for `Except`, needed to evaluate hashing results in
closed witnesses. -/
instance exceptDecEq {ε α : Type} [DecidableEq ε] [DecidableEq α] :
    DecidableEq (Except ε α) := fun a b =>
  match a, b with
  | .ok x, .ok y =>
    match decEq x y with
    | isTrue h => isTrue (h ▸ rfl)
    | isFalse h => isFalse (fun hc => h (Except.ok.inj hc))
  | .ok _, .error _ => isFalse (fun hc => Except.noConfusion hc)
  | .error _, .ok _ => isFalse (fun hc => Except.noConfusion hc)
  | .error x, .error y =>
    match decEq x y with
    | isTrue h => isTrue (h ▸ rfl)
    | isFalse h => isFalse (fun hc => h (Except.error.inj hc))

/-- Hex digit for a nibble, lowercase as produced by Python's `bytes.hex()`. -/
def hexDigitChar (n : Nat) : Char :=
  if n < 10 then Char.ofNat ('0'.toNat + n) else Char.ofNat ('a'.toNat + (n - 10))

/-- Value of one hex digit, accepting both cases as Python's `bytes.fromhex`. -/
def hexVal (c : Char) : Option Nat :=
  if '0' ≤ c ∧ c ≤ '9' then some (c.toNat - '0'.toNat)
  else if 'a' ≤ c ∧ c ≤ 'f' then some (c.toNat - 'a'.toNat + 10)
  else if 'A' ≤ c ∧ c ≤ 'F' then some (c.toNat - 'A'.toNat + 10)
  else none

/-- Embedding of Python's `bytes.hex()`: two lowercase hex digits per byte. -/
def bytesToHex : List Nat → List Char
  | [] => []
  | b :: bs => hexDigitChar (b / 16) :: hexDigitChar (b % 16) :: bytesToHex bs

/-- Embedding of Python's `bytes.fromhex`: pairs of hex digits, spaces between
pairs skipped, anything else (odd length, non-hex character) is a parse error
(`ValueError` in Python, `none` here). -/
def fromHex : List Char → Option (List Nat)
  | [] => some []
  | c :: rest =>
    if c = ' ' then fromHex rest
    else
      match rest with
      | [] => none
      | d :: rest2 =>
        match hexVal c, hexVal d with
        | some hi, some lo => (fromHex rest2).map (fun bs => (16 * hi + lo) :: bs)
        | _, _ => none

/-- Embedding of `SecureHasher._constant_time_compare`
(`src/common/security_utils.py:180-189`): length check, then an XOR-accumulate
over all byte pairs with no early exit, finally a single comparison of the
accumulator with zero. -/
def constant_time_compare (a b : List Nat) : Bool :=
  if a.length ≠ b.length then false
  else decide (((a.zip b).foldl (fun result xy => result ||| (xy.1 ^^^ xy.2)) 0) = 0)

/-- Embedding of `SecureHasher.hash_password`
(`src/common/security_utils.py:119-146`). The fresh 32-byte salt drawn by
`secrets.token_bytes(32)` and the PBKDF2 primitive are explicit parameters; the
function rejects the empty password with `PasswordValidationError` (modelled as
`Except.error`) and otherwise stores `salt.hex() + ':' + pwd_hash.hex()`. -/
def hash_password (kdf : String → List Nat → List Nat) (salt : List Nat)
    (password : String) : Except String String :=
  if password = "" then Except.error "Password must be a non-empty string"
  else Except.ok (String.mk (bytesToHex salt ++ ':' :: bytesToHex (kdf password salt)))

/-- Salt/digest extraction inside `SecureHasher.verify_password`
(`src/common/security_utils.py:159-169`): reject when no `':'` occurs, split at
the first `':'` (`split(':', 1)`), then decode both parts from hex; any
`ValueError` from `bytes.fromhex` is caught and turned into a `False` return,
modelled as `none`. -/
def parse_stored_hash (stored_hash : String) : Option (List Nat × List Nat) :=
  if stored_hash.data.contains ':' = false then none
  else
    let salt_hex := stored_hash.data.takeWhile (fun c => c != ':')
    let hash_hex := (stored_hash.data.dropWhile (fun c => c != ':')).tail
    match fromHex salt_hex, fromHex hash_hex with
    | some salt, some digest => some (salt, digest)
    | _, _ => none

/-- Embedding of `SecureHasher.verify_password`
(`src/common/security_utils.py:148-178`): parse the stored hash, re-derive with
the embedded salt and compare in constant time; every failure path returns
`false`. -/
def verify_password (kdf : String → List Nat → List Nat) (password : String)
    (stored_hash : String) : Bool :=
  match parse_stored_hash stored_hash with
  | none => false
  | some (salt, digest) => constant_time_compare (kdf password salt) digest

/-- Embedding of the `PasswordRequirements` dataclass
(`src/common/security_utils.py:18-34`). -/
structure PasswordRequirements where
  min_length : Nat
  max_length : Nat
  require_uppercase : Bool
  require_lowercase : Bool
  require_numbers : Bool
  require_special_chars : Bool
  forbidden_patterns : List String

/-- Default `PasswordRequirements()`, including the `__post_init__` deny-list. -/
def defaultRequirements : PasswordRequirements :=
  { min_length := 8
    max_length := 128
    require_uppercase := true
    require_lowercase := true
    require_numbers := true
    require_special_chars := true
    forbidden_patterns :=
      ["password", "123456", "admin", "qwerty", "letmein",
       "welcome", "password123", "12345678", "abc123"] }

/-- Special characters accepted by the validator
(`'!@#$%^&*()_+-=[]{}|;:,.<>?'` in the source). -/
def special_chars_list : List Char :=
  "!@#$%^&*()_+-=[]\x7b\x7d|;:,.<>?".data

/-- Embedding of Python's `str.lower` on one character (ASCII range). -/
def pyLowerChar (c : Char) : Char :=
  if 'A' ≤ c ∧ c ≤ 'Z' then Char.ofNat (c.toNat + 32) else c

/-- Embedding of the regex `(.)\1{2,}` used by
`PasswordValidator._has_repeated_patterns`
(`src/common/security_utils.py:107-110`): some character other than a newline
(`.` does not match `'\n'`) occurs at three consecutive positions. -/
def hasRun3 : List Char → Bool
  | a :: b :: c :: rest => (a != '\n' && a == b && b == c) || hasRun3 (b :: c :: rest)
  | _ => false

/-- Embedding of `PasswordValidator._has_repeated_patterns`. -/
def has_repeated_patterns (password : String) : Bool :=
  hasRun3 password.data

/-- Embedding of `PasswordValidator.validate_password_strength`
(`src/common/security_utils.py:59-105`). All rules are evaluated and the error
messages are accumulated in source order; the `isinstance` guard is subsumed by
typing. -/
def validate_password_strength (req : PasswordRequirements) (password : String) :
    Bool × List String :=
  let errors : List String :=
    (if password.data.length < req.min_length then
      ["Password must be at least " ++ toString req.min_length ++ " characters long"]
     else [])
    ++ (if password.data.length > req.max_length then
      ["Password cannot exceed " ++ toString req.max_length ++ " characters"]
     else [])
    ++ (if req.require_lowercase && !(password.data.any Char.isLower) then
      ["Password must contain at least one lowercase letter"]
     else [])
    ++ (if req.require_uppercase && !(password.data.any Char.isUpper) then
      ["Password must contain at least one uppercase letter"]
     else [])
    ++ (if req.require_numbers && !(password.data.any Char.isDigit) then
      ["Password must contain at least one number"]
     else [])
    ++ (if req.require_special_chars && !(password.data.any (fun c => special_chars_list.contains c)) then
      ["Password must contain at least one special character"]
     else [])
    ++ (if req.forbidden_patterns.contains (String.mk (password.data.map pyLowerChar)) then
      ["Password is too common. Please choose a more secure password."]
     else [])
    ++ (if has_repeated_patterns password then
      ["Avoid using repeated patterns in your password"]
     else [])
  (decide (errors.length = 0), errors)

/-- Whitespace characters stripped by Python's `str.strip` (ASCII range). -/
def pyIsSpace (c : Char) : Bool :=
  c = ' ' || c = '\t' || c = '\n' || c = '\r' || c = '\x0b' || c = '\x0c'

/-- Embedding of Python's `str.strip`: drop whitespace from both ends. -/
def pyStrip (l : List Char) : List Char :=
  ((l.dropWhile pyIsSpace).reverse.dropWhile pyIsSpace).reverse

/-- Username normalisation `username.strip().lower()` performed by
`AuthManager.authenticate_user` (`src/auth.py:237`). -/
def normUser (s : String) : String :=
  String.mk ((pyStrip s.data).map pyLowerChar)

/-- Model of the module-level dictionary `failed_login_attempts`
(`src/auth.py:31`): per key, the list of failure instants in append order. An
absent dict key is the empty list (see the module docstring above for why this
is faithful). -/
def FailTable : Type := String → List Int

/-- Empty failure table (fresh process state). -/
def emptyTable : FailTable := fun _ => []

/-- Embedding of `AuthManager._check_rate_limit` (`src/auth.py:282-312`):
purge every key's entries at or before `now - 900`, then allow iff both the
username key and (when an IP is supplied) the IP key have fewer than 5 recent
failures. The purged table is returned because the Python code mutates the
global dictionary in place. -/
def check_rate_limit (tbl : FailTable) (username : String) (ip : Option String)
    (now : Int) : Bool × FailTable :=
  let cutoff := now - 900
  let purged : FailTable := fun k => (tbl k).filter (fun t => decide (t > cutoff))
  let username_attempts := (purged ("user:" ++ username)).length
  let ip_attempts := match ip with
    | some i => (purged ("ip:" ++ i)).length
    | none => 0
  (decide (username_attempts < 5) && decide (ip_attempts < 5), purged)

/-- Embedding of `AuthManager._record_failed_attempt` (`src/auth.py:314-333`):
append `now` to the username key and, when an IP is supplied, to the IP key.
No purging happens here. -/
def record_failed_attempt (tbl : FailTable) (username : String)
    (ip : Option String) (now : Int) : FailTable :=
  let user_key := "user:" ++ username
  let tbl1 : FailTable := fun k => if k = user_key then tbl user_key ++ [now] else tbl k
  match ip with
  | none => tbl1
  | some i =>
    let ip_key := "ip:" ++ i
    fun k => if k = ip_key then tbl1 ip_key ++ [now] else tbl1 k

/-- Embedding of `AuthManager._reset_rate_limit` (`src/auth.py:335-348`):
delete the username key and, when an IP is supplied, the IP key. -/
def reset_rate_limit (tbl : FailTable) (username : String) (ip : Option String) :
    FailTable :=
  let tbl1 : FailTable := fun k => if k = "user:" ++ username then [] else tbl k
  match ip with
  | none => tbl1
  | some i => fun k => if k = "ip:" ++ i then [] else tbl1 k

/-- Row of the `users` table as consumed by `authenticate_user`:
`user[0]` id, `user[1]` username, `user[2]` email, `user[3]` password hash. -/
structure UserRec where
  id : Int
  username : String
  email : String
  hash : String
deriving DecidableEq

/-- Collaborators of `AuthManager.authenticate_user`: the database lookup
`get_user_by_email` (whose exceptions surface as `Except.error`) and
`bcrypt.checkpw` as wrapped by `AuthManager.verify_password`
(`src/auth.py:88-98`, total: every bcrypt exception is caught and returns
`False`, so a total `Bool`-valued function is the faithful model). The first
`checkpw` argument is the stored hash, the second the provided password. -/
structure AuthEnv where
  getUserByEmail : String → Except Unit (Option UserRec)
  checkpw : String → String → Bool

/-- Result triple of `authenticate_user`: success flag, user info dict
(`id`, `username`, `email`) and message. -/
def AuthResult : Type := Bool × Option (Int × String × String) × String

/-- Body of `AuthManager.authenticate_user` (`src/auth.py:230-280`) after the
username has been normalised: emptiness check, rate-limit check (which purges
and therefore updates the table), database lookup, exactly one password
verification (against a fixed dummy bcrypt hash when the user is absent), then
either reset-and-succeed or record-failure-and-fail with the generic message. -/
def authenticate_core (env : AuthEnv) (tbl : FailTable) (username : String)
    (password : String) (ip : Option String) (now : Int) : AuthResult × FailTable :=
  if username = "" || password = "" then
    ((false, none, "Username and password are required"), tbl)
  else
    let checked := check_rate_limit tbl username ip now
    if !checked.1 then
      ((false, none, "Too many failed attempts. Please try again later."), checked.2)
    else
      match env.getUserByEmail username with
      | Except.error _ =>
        ((false, none, "Authentication service temporarily unavailable"), checked.2)
      | Except.ok userOpt =>
        let password_valid :=
          match userOpt with
          | some user => env.checkpw user.hash password
          | none =>
            let _dummy := env.checkpw "$2b$12$dummy.hash.to.prevent.timing.attacks" password
            false
        match userOpt, password_valid with
        | some user, true =>
          ((true, some (user.id, user.username, user.email), "Authentication successful"),
            reset_rate_limit checked.2 username ip)
        | _, _ =>
          ((false, none, "Invalid username or password"),
            record_failed_attempt checked.2 username ip now)

/-- Embedding of `AuthManager.authenticate_user` (`src/auth.py:230-280`):
normalise the username with `strip().lower()` and run the attempt. The
`isinstance` guard is subsumed by typing. -/
def authenticate_user (env : AuthEnv) (tbl : FailTable) (username : String)
    (password : String) (ip : Option String) (now : Int) : AuthResult × FailTable :=
  authenticate_core env tbl (normUser username) password ip now

/-- Payload built by `AuthManager.create_jwt_token` (`src/auth.py:109-118`). -/
structure JwtPayload where
  user_id : Int
  username : String
  exp : Int
  iat : Int
  iss : String
  aud : String
  jti : String
  is_admin : Bool
deriving DecidableEq

/-- Token as produced by `jwt.encode`: the payload together with an HMAC-SHA256
signature over it under the signing key. The signature primitive is abstracted
as a function parameter `sign`. -/
structure JwtToken where
  payload : JwtPayload
  sig : String
deriving DecidableEq

/-- Embedding of `AuthManager.create_jwt_token` (`src/auth.py:100-123`).
`envKey` is the value of the `JWT_SECRET_KEY` environment variable
(`none` when unset) and `freshKey` is the `secrets.token_urlsafe(64)` value
that `os.getenv` falls back to — drawn anew on every call. -/
def create_jwt_token (sign : String → JwtPayload → String) (envKey : Option String)
    (freshKey : String) (freshJti : String) (now : Int) (user_id : Int)
    (username : String) (is_admin : Bool) : JwtToken :=
  let secret_key := envKey.getD freshKey
  let payload : JwtPayload :=
    { user_id := user_id
      username := username
      exp := now + 3600
      iat := now
      iss := "qodo-merge-app"
      aud := "qodo-merge-users"
      jti := freshJti
      is_admin := is_admin }
  { payload := payload, sig := sign secret_key payload }

/-- Embedding of `AuthManager.verify_jwt_token` (`src/auth.py:125-161`).
`envKey`/`freshKey` are as in `create_jwt_token`: the secret key is looked up
again on every call, falling back to a fresh random value. `jwt.decode` checks
the signature first, then expiry, then audience and issuer; in the `except`
ladder every `InvalidTokenError` subclass other than `ExpiredSignatureError`
is caught by the `jwt.InvalidTokenError` clause, so bad signature, audience and
issuer all surface as "Invalid token". -/
def verify_jwt_token (sign : String → JwtPayload → String) (envKey : Option String)
    (freshKey : String) (now : Int) (tok : JwtToken) :
    Bool × Option JwtPayload × Option String :=
  let secret_key := envKey.getD freshKey
  if sign secret_key tok.payload ≠ tok.sig then (false, none, some "Invalid token")
  else if tok.payload.exp ≤ now then (false, none, some "Token has expired")
  else if tok.payload.aud ≠ "qodo-merge-users" then (false, none, some "Invalid token")
  else if tok.payload.iss ≠ "qodo-merge-app" then (false, none, some "Invalid token")
  else (true, some tok.payload, none)

/-- Concrete instantiation of the abstract signing primitive used to evaluate
the JWT round trip on explicit inputs: the signature is the signing key itself,
so tokens signed under distinct keys carry distinct signatures. -/
def signWithKey : String → JwtPayload → String := fun key _ => key

/-- Concrete instantiation of the abstract PBKDF2 primitive used in closed
witnesses: the digest is the character-code sequence of the password. -/
def kdfCharCodes : String → List Nat → List Nat := fun s _ => s.data.map Char.toNat

/-- Five consecutive `_record_failed_attempt` calls for one username/IP pair
starting from the empty failure table. -/
def record_five (u : String) (ip : Option String) (t1 t2 t3 t4 t5 : Int) :
    FailTable :=
  record_failed_attempt (record_failed_attempt (record_failed_attempt
    (record_failed_attempt (record_failed_attempt emptyTable u ip t1)
      u ip t2) u ip t3) u ip t4) u ip t5

/-- Concrete collaborator environment for evaluating `authenticate_user`:
the user store knows exactly the identity `"bob"`, and `bcrypt.checkpw`
rejects every password (no password matches the stored hash). -/
def authEnvW : AuthEnv :=
  { getUserByEmail := fun s =>
      Except.ok (if s = "bob" then some ⟨1, "bob", "bob@example.com", "H"⟩ else none)
    checkpw := fun _ _ => false }

theorem toNat_ofNat_valid (n : Nat) (h : n.isValidChar) : (Char.ofNat n).toNat = n := by
  simp [Char.ofNat, dif_pos h, Char.ofNatAux, Char.toNat, UInt32.toNat, BitVec.ofNatLt]

theorem char_eq_iff_toNat (c d : Char) : c = d ↔ c.toNat = d.toNat :=
  ⟨congrArg Char.toNat, fun h => Char.ext (UInt32.toNat.inj h)⟩

theorem char_le_iff_toNat (c d : Char) : c ≤ d ↔ c.toNat ≤ d.toNat := by
  rw [Char.le_def, UInt32.le_def, BitVec.le_def]; rfl

theorem pyIsSpace_iff (c : Char) :
    pyIsSpace c = true ↔ (c.toNat = 32 ∨ c.toNat = 9 ∨ c.toNat = 10 ∨ c.toNat = 13 ∨
      c.toNat = 11 ∨ c.toNat = 12) := by
  simp only [pyIsSpace, Bool.or_eq_true, decide_eq_true_eq, char_eq_iff_toNat,
    show (' ').toNat = 32 from rfl, show ('\t').toNat = 9 from rfl,
    show ('\n').toNat = 10 from rfl, show ('\x0d').toNat = 13 from rfl,
    show ('\x0b').toNat = 11 from rfl, show ('\x0c').toNat = 12 from rfl]
  tauto

theorem pyIsSpace_pyLowerChar (c : Char) : pyIsSpace (pyLowerChar c) = pyIsSpace c := by
  by_cases h : 'A' ≤ c ∧ c ≤ 'Z'
  · have h1 : 65 ≤ c.toNat := (char_le_iff_toNat 'A' c).mp h.1
    have h2 : c.toNat ≤ 90 := (char_le_iff_toNat c 'Z').mp h.2
    have hv : (Char.ofNat (c.toNat + 32)).toNat = c.toNat + 32 :=
      toNat_ofNat_valid _ (Or.inl (by omega))
    simp only [pyLowerChar, if_pos h]
    have e1 : pyIsSpace (Char.ofNat (c.toNat + 32)) = false := by
      rw [← Bool.not_eq_true, pyIsSpace_iff, hv]; omega
    have e2 : pyIsSpace c = false := by
      rw [← Bool.not_eq_true, pyIsSpace_iff]; omega
    rw [e1, e2]
  · simp only [pyLowerChar, if_neg h]

theorem pyLowerChar_idem (c : Char) : pyLowerChar (pyLowerChar c) = pyLowerChar c := by
  by_cases h : 'A' ≤ c ∧ c ≤ 'Z'
  · have h1 : 65 ≤ c.toNat := (char_le_iff_toNat 'A' c).mp h.1
    have h2 : c.toNat ≤ 90 := (char_le_iff_toNat c 'Z').mp h.2
    have hv : (Char.ofNat (c.toNat + 32)).toNat = c.toNat + 32 :=
      toNat_ofNat_valid _ (Or.inl (by omega))
    simp only [pyLowerChar, if_pos h]
    rw [if_neg]
    intro hx
    have ha := (char_le_iff_toNat _ _).mp hx.1
    have hb := (char_le_iff_toNat _ _).mp hx.2
    rw [hv] at ha hb
    rw [show ('A').toNat = 65 from rfl] at ha
    rw [show ('Z').toNat = 90 from rfl] at hb
    omega
  · simp only [pyLowerChar, if_neg h]

theorem dropWhile_dropWhile (p : α → Bool) (l : List α) :
    (l.dropWhile p).dropWhile p = l.dropWhile p := by
  induction l with
  | nil => rfl
  | cons a t ih =>
    rw [List.dropWhile_cons]
    split
    · exact ih
    · next h => rw [List.dropWhile_cons, if_neg h]

theorem dropWhile_eq_self_of_head? (p : α → Bool) (l : List α)
    (h : ∀ a, l.head? = some a → p a = false) : l.dropWhile p = l := by
  cases l with
  | nil => rfl
  | cons a t =>
    rw [List.dropWhile_cons, if_neg]
    rw [h a rfl]
    simp

theorem head?_dropWhile_false (p : α → Bool) (l : List α) (a : α)
    (h : (l.dropWhile p).head? = some a) : p a = false := by
  have hne : l.dropWhile p ≠ [] := by intro hc; rw [hc] at h; simp at h
  rw [List.head?_eq_head hne, Option.some.injEq] at h
  have := List.head_dropWhile_not p l hne
  exact h ▸ this

theorem pyStrip_dropWhile (l : List Char) :
    (pyStrip l).dropWhile pyIsSpace = pyStrip l := by
  apply dropWhile_eq_self_of_head?
  intro a ha
  unfold pyStrip at ha
  rw [List.head?_reverse] at ha
  obtain ⟨t, ht⟩ := List.dropWhile_suffix (l := (l.dropWhile pyIsSpace).reverse) pyIsSpace
  have h2 : (t ++ (l.dropWhile pyIsSpace).reverse.dropWhile pyIsSpace).getLast? = some a := by
    rw [List.getLast?_append, ha]; rfl
  rw [ht, List.getLast?_reverse] at h2
  exact head?_dropWhile_false pyIsSpace l a h2

theorem pyStrip_idem (l : List Char) : pyStrip (pyStrip l) = pyStrip l := by
  conv_lhs => rw [pyStrip, pyStrip_dropWhile]
  rw [pyStrip, List.reverse_reverse, dropWhile_dropWhile]

theorem pyStrip_map_lower (l : List Char) :
    pyStrip (l.map pyLowerChar) = (pyStrip l).map pyLowerChar := by
  have hpf : pyIsSpace ∘ pyLowerChar = pyIsSpace := funext pyIsSpace_pyLowerChar
  unfold pyStrip
  rw [List.dropWhile_map, hpf, ← List.map_reverse, List.dropWhile_map, hpf,
    ← List.map_reverse]

theorem normUser_idem (s : String) : normUser (normUser s) = normUser s := by
  show String.mk ((pyStrip ((pyStrip s.data).map pyLowerChar)).map pyLowerChar)
    = String.mk ((pyStrip s.data).map pyLowerChar)
  rw [pyStrip_map_lower, pyStrip_idem, List.map_map]
  have : pyLowerChar ∘ pyLowerChar = pyLowerChar := funext pyLowerChar_idem
  rw [this]

/-- C10 — Identity normalization: `authenticate_user` strips and lowercases the
supplied username before the rate-limit check, the credential lookup and the
failure recording, so an attempt with `u` produces exactly the same result
triple and the same failure-table state as an attempt with
`u.strip().lower()`; in particular case variants of one identity share a
single failure record. -/
theorem authenticate_user_normalizes_username (env : AuthEnv) (tbl : FailTable)
    (u p : String) (ip : Option String) (now : Int) :
    authenticate_user env tbl u p ip now
      = authenticate_user env tbl (normUser u) p ip now := by
  unfold authenticate_user
  rw [normUser_idem]

theorem nat_lor_eq_zero_iff (a b : Nat) : a ||| b = 0 ↔ a = 0 ∧ b = 0 := by
  constructor
  · intro h
    constructor
    · by_contra ha
      obtain ⟨i, hi, _⟩ := Nat.exists_most_significant_bit ha
      have := Nat.testBit_lor a b i
      rw [h] at this
      simp [hi] at this
    · by_contra hb
      obtain ⟨i, hi, _⟩ := Nat.exists_most_significant_bit hb
      have := Nat.testBit_lor a b i
      rw [h] at this
      simp [hi] at this
  · rintro ⟨rfl, rfl⟩; rfl

theorem foldl_lor_xor_eq_zero (l : List (Nat × Nat)) (acc : Nat) :
    (l.foldl (fun result xy => result ||| (xy.1 ^^^ xy.2)) acc = 0)
      ↔ (acc = 0 ∧ ∀ xy ∈ l, xy.1 = xy.2) := by
  induction l generalizing acc with
  | nil => simp
  | cons a t ih =>
    rw [List.foldl_cons, ih, nat_lor_eq_zero_iff, Nat.xor_eq_zero]
    constructor
    · rintro ⟨⟨h0, hxy⟩, hrest⟩
      refine ⟨h0, ?_⟩
      intro xy hm
      rcases List.mem_cons.mp hm with rfl | hm
      · exact hxy
      · exact hrest xy hm
    · rintro ⟨h0, hall⟩
      exact ⟨⟨h0, hall a (List.mem_cons_self a t)⟩,
        fun xy hm => hall xy (List.mem_cons_of_mem a hm)⟩

theorem zip_self_fst_eq_snd (l : List Nat) : ∀ xy ∈ l.zip l, xy.1 = xy.2 := by
  induction l with
  | nil => simp
  | cons a t ih =>
    intro xy hm
    rw [List.zip_cons_cons] at hm
    rcases List.mem_cons.mp hm with rfl | hm
    · rfl
    · exact ih xy hm

theorem eq_of_length_eq_of_zip (a b : List Nat) (hlen : a.length = b.length)
    (h : ∀ xy ∈ a.zip b, xy.1 = xy.2) : a = b := by
  induction a generalizing b with
  | nil =>
    cases b with
    | nil => rfl
    | cons y s => simp at hlen
  | cons x t ih =>
    cases b with
    | nil => simp at hlen
    | cons y s =>
      have hxy : x = y := h (x, y) (by rw [List.zip_cons_cons]; exact List.mem_cons_self _ _)
      have ht : t = s := by
        apply ih s (by simpa using hlen)
        intro xy hm
        exact h xy (by rw [List.zip_cons_cons]; exact List.mem_cons_of_mem _ hm)
      rw [hxy, ht]

theorem ctc_iff (a b : List Nat) : constant_time_compare a b = true ↔ a = b := by
  unfold constant_time_compare
  split
  · next h =>
    simp only [Bool.false_eq_true, false_iff]
    intro hc
    exact h (congrArg List.length hc)
  · next h =>
    have hlen : a.length = b.length := not_ne_iff.mp h
    rw [decide_eq_true_eq, foldl_lor_xor_eq_zero]
    constructor
    · rintro ⟨_, hall⟩
      exact eq_of_length_eq_of_zip a b hlen hall
    · rintro rfl
      exact ⟨rfl, zip_self_fst_eq_snd a⟩

theorem hexVal_hexDigitChar : ∀ n, n < 16 → hexVal (hexDigitChar n) = some n := by decide

theorem hexDigitChar_ne_colon : ∀ n, n < 16 → ¬ hexDigitChar n = ':' := by decide

theorem hexDigitChar_ne_space : ∀ n, n < 16 → ¬ hexDigitChar n = ' ' := by decide

theorem fromHex_bytesToHex (bs : List Nat) (h : ∀ b ∈ bs, b < 256) :
    fromHex (bytesToHex bs) = some bs := by
  induction bs with
  | nil => rfl
  | cons b t ih =>
    have hb : b < 256 := h b (List.mem_cons_self b t)
    have h16a : b / 16 < 16 := by omega
    have h16b : b % 16 < 16 := by omega
    rw [bytesToHex, fromHex]
    rw [if_neg (hexDigitChar_ne_space _ h16a)]
    simp only [hexVal_hexDigitChar _ h16a, hexVal_hexDigitChar _ h16b]
    rw [ih (fun x hx => h x (List.mem_cons_of_mem b hx))]
    simp only [Option.map_some']
    have hb2 : 16 * (b / 16) + b % 16 = b := by omega
    rw [hb2]

theorem bytesToHex_ne_colon (bs : List Nat) (h : ∀ b ∈ bs, b < 256) :
    ∀ c ∈ bytesToHex bs, c ≠ ':' := by
  induction bs with
  | nil => simp [bytesToHex]
  | cons b t ih =>
    have hb : b < 256 := h b (List.mem_cons_self b t)
    intro c hc
    rw [bytesToHex] at hc
    rcases List.mem_cons.mp hc with rfl | hc
    · exact hexDigitChar_ne_colon _ (by omega)
    · rcases List.mem_cons.mp hc with rfl | hc
      · exact hexDigitChar_ne_colon _ (by omega)
      · exact ih (fun x hx => h x (List.mem_cons_of_mem b hx)) c hc

theorem takeWhile_append_colon (A B : List Char) (hA : ∀ c ∈ A, c ≠ ':') :
    (A ++ ':' :: B).takeWhile (fun c => c != ':') = A := by
  induction A with
  | nil => simp [List.takeWhile_cons]
  | cons a t ih =>
    rw [List.cons_append, List.takeWhile_cons]
    have hne : a ≠ ':' := hA a (List.mem_cons_self a t)
    rw [if_pos (bne_iff_ne.mpr hne)]
    rw [ih (fun c hc => hA c (List.mem_cons_of_mem a hc))]

theorem dropWhile_append_colon (A B : List Char) (hA : ∀ c ∈ A, c ≠ ':') :
    (A ++ ':' :: B).dropWhile (fun c => c != ':') = ':' :: B := by
  induction A with
  | nil => simp [List.dropWhile_cons]
  | cons a t ih =>
    rw [List.cons_append, List.dropWhile_cons]
    have hne : a ≠ ':' := hA a (List.mem_cons_self a t)
    rw [if_pos (bne_iff_ne.mpr hne)]
    exact ih (fun c hc => hA c (List.mem_cons_of_mem a hc))

theorem parse_stored_of_wellformed (salt d : List Nat)
    (hs : ∀ b ∈ salt, b < 256) (hd : ∀ b ∈ d, b < 256) :
    parse_stored_hash (String.mk (bytesToHex salt ++ ':' :: bytesToHex d))
      = some (salt, d) := by
  unfold parse_stored_hash
  have hcont : (bytesToHex salt ++ ':' :: bytesToHex d).contains ':' = true := by
    exact List.elem_eq_true_of_mem (by simp)
  show (if (bytesToHex salt ++ ':' :: bytesToHex d).contains ':' = false then _ else _) = _
  rw [hcont]
  simp only [Bool.true_eq_false, if_false]
  rw [takeWhile_append_colon _ _ (bytesToHex_ne_colon salt hs),
    dropWhile_append_colon _ _ (bytesToHex_ne_colon salt hs)]
  rw [List.tail_cons]
  rw [fromHex_bytesToHex salt hs, fromHex_bytesToHex d hd]

/-- C9 — Constant-time digest comparison: `_constant_time_compare` is the
fixed-length XOR-accumulate loop of the source (length check, then one pass
over every byte pair OR-ing the XOR differences with no early exit, then a
single zero test), and it returns `true` exactly when the two byte sequences
are equal. -/
theorem constant_time_compare_correct (a b : List Nat) :
    constant_time_compare a b = true ↔ a = b :=
  ctc_iff a b

/-- Witness for C9 at concrete byte strings. -/
theorem constant_time_compare_correct_witness :
    constant_time_compare [0, 255] [0, 255] = true ∧
      constant_time_compare [0, 255] [0, 254] = false := by
  constructor
  · exact (constant_time_compare_correct [0, 255] [0, 255]).mpr rfl
  · have h := constant_time_compare_correct [0, 255] [0, 254]
    revert h
    decide

/-- C1 — Hash/verify round trip for `SecureHasher`: for a non-empty secret
`s1`, verifying `s1` against `hash_password`'s output succeeds, and verifying
any distinct secret `s2` against it fails. The salt and the PBKDF2 digest are
byte strings (entries < 256), and distinguishing distinct secrets relies on
the PBKDF2 primitive being collision-free at this salt, stated as the
hypothesis `hinj`. -/
theorem secure_hasher_verify_roundtrip (kdf : String → List Nat → List Nat)
    (salt : List Nat) (s1 s2 stored : String)
    (hs1 : s1 ≠ "")
    (hsalt : ∀ b ∈ salt, b < 256)
    (hdg : ∀ b ∈ kdf s1 salt, b < 256)
    (hinj : kdf s2 salt = kdf s1 salt → s2 = s1)
    (hh : hash_password kdf salt s1 = Except.ok stored) :
    verify_password kdf s1 stored = true ∧
      (s2 ≠ s1 → verify_password kdf s2 stored = false) := by
  have hstored : stored = String.mk (bytesToHex salt ++ ':' :: bytesToHex (kdf s1 salt)) := by
    unfold hash_password at hh
    rw [if_neg hs1] at hh
    exact (Except.ok.inj hh).symm
  subst hstored
  have hparse := parse_stored_of_wellformed salt (kdf s1 salt) hsalt hdg
  constructor
  · unfold verify_password
    rw [hparse]
    exact (ctc_iff _ _).mpr rfl
  · intro hne
    unfold verify_password
    rw [hparse]
    have : ¬ constant_time_compare (kdf s2 salt) (kdf s1 salt) = true :=
      fun hc => hne (hinj ((ctc_iff _ _).mp hc))
    exact Bool.not_eq_true _ ▸ this

/-- Witness for C1: concrete salt `[7, 200]`, secrets `"ab"` and `"cd"`, with
the character-code instantiation of the key-derivation primitive. -/
theorem secure_hasher_verify_roundtrip_witness :
    verify_password kdfCharCodes "ab" "07c8:6162" = true ∧
      verify_password kdfCharCodes "cd" "07c8:6162" = false := by
  have h := secure_hasher_verify_roundtrip kdfCharCodes [7, 200] "ab" "cd" "07c8:6162"
    (by decide) (by decide) (by decide) (by decide) (by decide)
  exact ⟨h.1, h.2 (by decide)⟩

/-- C7 — Totality of `verify_password` on malformed input: the embedding is a
total function (the Python `except` ladder returns `False` on every raised
error), and it returns `false` whenever the stored hash fails to parse
(missing `':'` separator, non-hex salt or digest) as well as whenever the
decoded digest's length differs from the derived digest's length. -/
theorem verify_password_malformed_false (kdf : String → List Nat → List Nat)
    (password stored_hash : String) :
    (parse_stored_hash stored_hash = none →
      verify_password kdf password stored_hash = false) ∧
    (∀ salt digest, parse_stored_hash stored_hash = some (salt, digest) →
      (kdf password salt).length ≠ digest.length →
      verify_password kdf password stored_hash = false) := by
  constructor
  · intro h
    unfold verify_password
    rw [h]
  · intro salt digest h hlen
    unfold verify_password
    rw [h]
    show constant_time_compare (kdf password salt) digest = false
    unfold constant_time_compare
    rw [if_pos hlen]

/-- Witness for C7: a stored hash with no separator, one with a non-hex
digest, and one whose digest has the wrong length all verify to `false`. -/
theorem verify_password_malformed_false_witness :
    verify_password kdfCharCodes "x" "deadbeef" = false ∧
      verify_password kdfCharCodes "x" "07:zz" = false ∧
      verify_password kdfCharCodes "x" "07:6162" = false := by
  refine ⟨?_, ?_, ?_⟩
  · exact (verify_password_malformed_false kdfCharCodes "x" "deadbeef").1 (by decide)
  · exact (verify_password_malformed_false kdfCharCodes "x" "07:zz").1 (by decide)
  · exact (verify_password_malformed_false kdfCharCodes "x" "07:6162").2 [7] [97, 98]
      (by decide) (by decide)

/-- C8 — `hash_password` rejects the empty secret with
`PasswordValidationError("Password must be a non-empty string")` and, for
every non-empty secret, returns the stored-hash string encoding the salt and
the derived digest together as `salt.hex() + ':' + digest.hex()`. -/
theorem hash_password_empty_and_nonempty (kdf : String → List Nat → List Nat)
    (salt : List Nat) :
    hash_password kdf salt "" = Except.error "Password must be a non-empty string" ∧
    ∀ s : String, s ≠ "" →
      hash_password kdf salt s
        = Except.ok (String.mk (bytesToHex salt ++ ':' :: bytesToHex (kdf s salt))) := by
  constructor
  · unfold hash_password
    rw [if_pos rfl]
  · intro s hs
    unfold hash_password
    rw [if_neg hs]

/-- Witness for C8: the empty password errors, `"ab"` yields the concrete
stored hash under the character-code instantiation of the primitive. -/
theorem hash_password_empty_and_nonempty_witness :
    hash_password kdfCharCodes [7, 200] "" = Except.error "Password must be a non-empty string" ∧
      hash_password kdfCharCodes [7, 200] "ab" = Except.ok "07c8:6162" := by
  constructor
  · exact (hash_password_empty_and_nonempty kdfCharCodes [7, 200]).1
  · have h := (hash_password_empty_and_nonempty kdfCharCodes [7, 200]).2 "ab" (by decide)
    rw [h]
    decide

theorem userKey_ne_ipKey (a b : String) : "user:" ++ a ≠ "ip:" ++ b := by
  intro h
  have h2 : ("user:" ++ a).data = ("ip:" ++ b).data := congrArg String.data h
  simp [String.data_append] at h2

theorem record_user_lookup (tbl : FailTable) (u : String) (ip : Option String)
    (now : Int) :
    record_failed_attempt tbl u ip now ("user:" ++ u) = tbl ("user:" ++ u) ++ [now] := by
  cases ip with
  | none => simp [record_failed_attempt]
  | some i => simp [record_failed_attempt, userKey_ne_ipKey u i]

theorem record_ip_lookup (tbl : FailTable) (u i : String) (now : Int) :
    record_failed_attempt tbl u (some i) now ("ip:" ++ i) = tbl ("ip:" ++ i) ++ [now] := by
  simp [record_failed_attempt, (userKey_ne_ipKey u i).symm]

theorem reset_user_lookup (tbl : FailTable) (u : String) (ip : Option String) :
    reset_rate_limit tbl u ip ("user:" ++ u) = [] := by
  cases ip with
  | none => simp [reset_rate_limit]
  | some i => simp [reset_rate_limit, userKey_ne_ipKey u i]

theorem reset_ip_lookup (tbl : FailTable) (u i : String) :
    reset_rate_limit tbl u (some i) ("ip:" ++ i) = [] := by
  simp [reset_rate_limit]

theorem record_five_user (u : String) (ip : Option String) (t1 t2 t3 t4 t5 : Int) :
    record_five u ip t1 t2 t3 t4 t5 ("user:" ++ u) = [t1, t2, t3, t4, t5] := by
  unfold record_five
  rw [record_user_lookup, record_user_lookup, record_user_lookup,
    record_user_lookup, record_user_lookup]
  simp [emptyTable]

/-- C4 — Rate-limit threshold and reset: starting from the empty failure
table, after exactly 5 `_record_failed_attempt` calls for one username (and
IP, when supplied) whose instants all lie inside the trailing 900-second
window, `_check_rate_limit` denies the attempt; after `_reset_rate_limit` it
allows it again immediately. -/
theorem rate_limit_threshold_and_reset (u : String) (ip : Option String)
    (t1 t2 t3 t4 t5 now : Int)
    (h1 : t1 > now - 900) (h2 : t2 > now - 900) (h3 : t3 > now - 900)
    (h4 : t4 > now - 900) (h5 : t5 > now - 900) :
    (check_rate_limit (record_five u ip t1 t2 t3 t4 t5) u ip now).1 = false ∧
    (check_rate_limit (reset_rate_limit (record_five u ip t1 t2 t3 t4 t5) u ip)
      u ip now).1 = true := by
  have huser := record_five_user u ip t1 t2 t3 t4 t5
  have hfilter : [t1, t2, t3, t4, t5].filter (fun t => decide (t > now - 900))
      = [t1, t2, t3, t4, t5] := by
    rw [List.filter_eq_self]
    intro a ha
    rw [decide_eq_true_eq]
    rcases List.mem_cons.mp ha with rfl | ha
    · omega
    rcases List.mem_cons.mp ha with rfl | ha
    · omega
    rcases List.mem_cons.mp ha with rfl | ha
    · omega
    rcases List.mem_cons.mp ha with rfl | ha
    · omega
    rcases List.mem_cons.mp ha with rfl | ha
    · omega
    · simp at ha
  constructor
  · simp only [check_rate_limit, huser, hfilter]
    simp
  · have hu := reset_user_lookup (record_five u ip t1 t2 t3 t4 t5) u ip
    cases ip with
    | none => simp [check_rate_limit, hu]
    | some i =>
      have hi := reset_ip_lookup (record_five u (some i) t1 t2 t3 t4 t5) u i
      simp [check_rate_limit, hu, hi]

/-- Witness for C4 at the key `"u1"`, no IP, all failures at the checking
instant. -/
theorem rate_limit_threshold_and_reset_witness :
    (check_rate_limit (record_five "u1" none 1000 1000 1000 1000 1000)
      "u1" none 1000).1 = false ∧
    (check_rate_limit (reset_rate_limit
      (record_five "u1" none 1000 1000 1000 1000 1000) "u1" none)
      "u1" none 1000).1 = true :=
  rate_limit_threshold_and_reset "u1" none 1000 1000 1000 1000 1000 1000
    (by decide) (by decide) (by decide) (by decide) (by decide)

/-- C5 (amended) — Purge on read: after every `_check_rate_limit` call the
failure table contains no timestamp at or before `now - 900`; the purge
happens in this reading call, not in `_record_failed_attempt` (which only
appends, see the counterexample). -/
theorem check_rate_limit_purges (tbl : FailTable) (u : String)
    (ip : Option String) (now : Int) (k : String) (x : Int)
    (hx : x ∈ (check_rate_limit tbl u ip now).2 k) : x > now - 900 := by
  simp only [check_rate_limit] at hx
  rw [List.mem_filter] at hx
  exact of_decide_eq_true hx.2

/-- Witness for C5's amended theorem on a concrete table. -/
theorem check_rate_limit_purges_witness :
    (500 : Int) ∈ (check_rate_limit (fun _ => [500]) "u1" none 1000).2 "k" ∧
      (500 : Int) > 1000 - 900 := by
  constructor
  · decide
  · exact check_rate_limit_purges (fun _ => [500]) "u1" none 1000 "k" 500 (by decide)

/-- Counterexample to C5 as stated: record a failure for `"u1"` at instant 0
and another at instant 1000. Immediately after the second mutating
`_record_failed_attempt` call the table still holds the timestamp 0, which is
outside the trailing 900-second window (0 ≤ 1000 − 900), so `record_failure`
does not purge stale entries before returning. -/
theorem record_failed_attempt_no_purge :
    (0 : Int) ∈ record_failed_attempt
      (record_failed_attempt emptyTable "u1" none 0) "u1" none 1000 "user:u1" ∧
    ¬ ((0 : Int) > 1000 - 900) := by decide

/-- C6 — Identity-existence noninterference: for a non-rate-limited attempt,
authenticating a non-existent identity and authenticating an existing identity
with a wrong secret return identical failure triples — same flag, same absent
user info, and the same generic message "Invalid username or password" — so
the returned value never distinguishes the two cases. -/
theorem auth_identity_noninterference (env : AuthEnv) (tbl : FailTable)
    (u1 u2 p : String) (ip : Option String) (now : Int) (user : UserRec)
    (hu1 : ¬ normUser u1 = "") (hu2 : ¬ normUser u2 = "") (hp : ¬ p = "")
    (hrl1 : (check_rate_limit tbl (normUser u1) ip now).1 = true)
    (hrl2 : (check_rate_limit tbl (normUser u2) ip now).1 = true)
    (hdb1 : env.getUserByEmail (normUser u1) = Except.ok none)
    (hdb2 : env.getUserByEmail (normUser u2) = Except.ok (some user))
    (hpw : env.checkpw user.hash p = false) :
    (authenticate_user env tbl u1 p ip now).1
        = (false, none, "Invalid username or password") ∧
    (authenticate_user env tbl u2 p ip now).1
        = (false, none, "Invalid username or password") := by
  constructor
  · simp only [authenticate_user, authenticate_core, hu1, hp, hrl1, hdb1]
    simp
  · simp only [authenticate_user, authenticate_core, hu2, hp, hrl2, hdb2, hpw]
    simp

/-- Witness for C6: under `authEnvW` (which knows only `"bob"` and rejects
every password), authenticating the unknown `"alice"` and the known `"bob"`
with a wrong password yield the identical failure triple. -/
theorem auth_identity_noninterference_witness :
    (authenticate_user authEnvW emptyTable "alice" "pw" none 0).1
        = (false, none, "Invalid username or password") ∧
    (authenticate_user authEnvW emptyTable "bob" "pw" none 0).1
        = (false, none, "Invalid username or password") :=
  auth_identity_noninterference authEnvW emptyTable "alice" "bob" "pw" none 0
    ⟨1, "bob", "bob@example.com", "H"⟩
    (by decide) (by decide) (by decide) (by decide) (by decide)
    (by decide) (by decide) (by decide)

/-- C2 — JWT round trip at the failing input: with `JWT_SECRET_KEY` unset,
`create_jwt_token` and `verify_jwt_token` each fall back to a freshly drawn
random default key (`os.getenv('JWT_SECRET_KEY', secrets.token_urlsafe(64))`
is evaluated in every call), so a token issued and immediately verified in the
same process is rejected as invalid; only when the environment variable is set
do both calls share one key and the immediate round trip succeed. Evaluated
under the concrete signing primitive `signWithKey`, for which distinct keys
produce distinct signatures. -/
theorem jwt_roundtrip_key_mismatch :
    (verify_jwt_token signWithKey none "key2" 0
      (create_jwt_token signWithKey none "key1" "jti1" 0 1 "alice" false))
        = (false, none, some "Invalid token") ∧
    (verify_jwt_token signWithKey (some "envkey") "key2" 0
      (create_jwt_token signWithKey (some "envkey") "key1" "jti1" 0 1 "alice" false)).1
        = true := by
  constructor
  · decide
  · decide

/-- Counterexample to C3 as stated: under the default configuration the
password `"Aa1!aaaa"` is rejected, not accepted — it contains the run
`"aaaa"`, which the repeated-pattern rule `(.)\1{2,}` flags. -/
theorem password_Aa1aaaa_rejected :
    (validate_password_strength defaultRequirements "Aa1!aaaa").1 = false := by
  decide

/-- C3 (amended) — Under the default configuration, validation returns
ok=false for `"short"` with a violation mentioning length; the validator
enforces the repeated-run rule (no ≥3 identical consecutive characters, as
matched by the source regex `(.)\1{2,}`, whose `.` cannot match a newline);
consequently `"Aa1!aaaa"` returns ok=false with the repeated-pattern message
as its only violation. -/
theorem password_validation_corrected :
    (validate_password_strength defaultRequirements "short").1 = false ∧
    "Password must be at least 8 characters long"
      ∈ (validate_password_strength defaultRequirements "short").2 ∧
    validate_password_strength defaultRequirements "Aa1!aaaa"
      = (false, ["Avoid using repeated patterns in your password"]) ∧
    ∀ (req : PasswordRequirements) (p : String), has_repeated_patterns p = true →
      (validate_password_strength req p).1 = false := by
  refine ⟨by decide, by decide, by decide, ?_⟩
  intro req p hrun
  simp only [validate_password_strength, hrun, if_true]
  rw [decide_eq_false_iff_not]
  simp [List.length_append]

/-- Witness for C3's amended theorem: `"Aa1!bbb9"` satisfies every character
class yet contains the run `"bbb"`, so it is rejected. -/
theorem password_validation_corrected_witness :
    (validate_password_strength defaultRequirements "Aa1!bbb9").1 = false :=
  password_validation_corrected.2.2.2 defaultRequirements "Aa1!bbb9" (by decide)
